import Mathlib

/-!
Verification of the behaviour of `src/rust-demo.rs`: a straight-line Rust
program that prints a greeting, a vector of numbers, the vector doubled
element-wise, and a sentence about a `Person` record.

The program is embedded shallowly: `main` becomes a pure function
`rustMain` returning the list of lines written to standard output, or
`none` if any i32 multiplication would overflow (Rust debug builds panic
on overflow, which would abort the program before printing the remaining
lines).
-/

namespace RustDemo

/-- Bounds of Rust's `i32` type. -/
def i32Min : Int := -(2 ^ 31)

def i32Max : Int := 2 ^ 31 - 1

/-- Checked i32 multiplication by 2, mirroring `|&x| x * 2` in the source:
Rust's debug-mode semantics panic when `x * 2` leaves the i32 range, which
we model with `none`. -/
def doubleChecked (x : Int) : Option Int :=
  if i32Min ≤ x * 2 ∧ x * 2 ≤ i32Max then some (x * 2) else none

/-- `let numbers = vec![1, 2, 3, 4, 5];` from the source. -/
def numbers : List Int := [1, 2, 3, 4, 5]

/-- `let doubled: Vec<i32> = numbers.iter().map(|&x| x * 2).collect();`
with overflow modelled via `Option`. -/
def doubledOpt : Option (List Int) := numbers.mapM doubleChecked

/-- The `Person` struct from the source: `name: String, age: u32`
(`u32` modelled as `Nat`; the literal value 30 is in range). -/
structure Person where
  name : String
  age : Nat

/-- `let person = Person { name: String::from("Alice"), age: 30 };` -/
def person : Person := { name := "Alice", age := 30 }

/-- Rust's `Debug` rendering of a `Vec<i32>`, as produced by `{:?}`:
comma-space separated elements between square brackets. -/
def debugVec (xs : List Int) : String :=
  "[" ++ String.intercalate ", " (xs.map toString) ++ "]"

/-- The line printed by `println!("\x7b\x7d is \x7b\x7d years old", person.name, person.age)`. -/
def personLine (p : Person) : String :=
  p.name ++ " is " ++ toString p.age ++ " years old"

/-- The whole of `fn main()`: the list of lines written to standard
output, in order, or `none` if the doubling map panics on overflow.
The `struct Person` declaration inside `main` produces no output. -/
def rustMain : Option (List String) :=
  doubledOpt.map (fun doubled =>
    [ "Hello from Rust! Testing syntax highlighting"
    , "Original numbers: " ++ debugVec numbers
    , "Doubled numbers: " ++ debugVec doubled
    , personLine person ])

/-- The process exit code: 0 on completion, 101 (Rust's panic exit code)
if the program panicked. -/
def exitCode : Nat :=
  match rustMain with
  | some _ => 0
  | none => 101

/-- The entry point as seen from the operating system: `fn main()` takes
no command-line arguments and reads no environment variables, so the run
ignores both. -/
def rustMainWithEnv (_args : List String) (_env : List (String × String)) :
    Option (List String) :=
  rustMain

end RustDemo

namespace RustDemo

/-- C1 counterexample: the program's standard output consists of 4 lines,
not the 5 enumerated by the claim, because the `struct Person` declaration
writes nothing at runtime. -/
theorem main_output_not_five_lines :
    rustMain = some
      [ "Hello from Rust! Testing syntax highlighting"
      , "Original numbers: [1, 2, 3, 4, 5]"
      , "Doubled numbers: [2, 4, 6, 8, 10]"
      , "Alice is 30 years old" ] ∧
    Option.map List.length rustMain = some 4 ∧ (4 : Nat) ≠ 5 := by
  refine ⟨rfl, rfl, by decide⟩

/-- C1 (amended): standard output equals exactly the four observable
lines of §4.1 — the greeting, the debug rendering of the number sequence,
the debug rendering of the doubled sequence, and the person sentence — in
that order, with no additional lines; the `PersonRecord` type declaration
produces no output. -/
theorem main_output_exact :
    rustMain = some
      [ "Hello from Rust! Testing syntax highlighting"
      , "Original numbers: [1, 2, 3, 4, 5]"
      , "Doubled numbers: [2, 4, 6, 8, 10]"
      , "Alice is 30 years old" ] := rfl

/-- C2: for every index `i` in `0..5`, the `i`-th element of the doubled
sequence equals `2 *` the `i`-th element of the original sequence; the
transform is order-preserving. -/
theorem doubled_pointwise :
    ∀ i, i < 5 →
      (doubledOpt.getD []).getD i 0 = 2 * numbers.getD i 0 := by decide

/-- C2 witness at the concrete index 3. -/
theorem doubled_pointwise_witness :
    (doubledOpt.getD []).getD 3 0 = 2 * numbers.getD 3 0 :=
  doubled_pointwise 3 (by decide)

/-- C3: the doubled sequence has the same length as the original number
sequence, and both have length 5. -/
theorem doubled_length :
    (doubledOpt.getD []).length = numbers.length ∧ numbers.length = 5 := by
  decide

/-- C4: the sentence printed for the person record equals
`"Alice is 30 years old"` exactly, the record having `name = "Alice"` and
`age = 30`. -/
theorem person_sentence :
    personLine person = "Alice is 30 years old" ∧
    person.name = "Alice" ∧ person.age = 30 := by
  refine ⟨rfl, rfl, rfl⟩

/-- C5: the output is fully deterministic — for any two runs, under any
command-line arguments and any environment, the bytes written to standard
output are identical (the procedure consumes neither). -/
theorem main_deterministic :
    ∀ args₁ env₁ args₂ env₂,
      rustMainWithEnv args₁ env₁ = rustMainWithEnv args₂ env₂ := by
  intro _ _ _ _
  rfl

/-- C6: every invocation terminates (the run evaluates to a concrete
value) and the process exits with code 0; no other exit code is
reachable. -/
theorem main_terminates_exit_zero :
    (∃ out, rustMain = some out) ∧ exitCode = 0 := by
  refine ⟨⟨_, rfl⟩, rfl⟩

/-- C7: no execution path fails — the run never takes the panic branch
(`none`), so every execution succeeds unconditionally. -/
theorem main_never_fails : rustMain.isSome = true := rfl

/-- C8: the original number sequence is never mutated — after the
doubling transform is computed, `numbers` still equals `[1, 2, 3, 4, 5]`,
and the `Original numbers` output line renders that unchanged literal. -/
theorem numbers_unmutated :
    doubledOpt = some [2, 4, 6, 8, 10] ∧ numbers = [1, 2, 3, 4, 5] ∧
    (rustMain.getD []).getD 1 "" =
      "Original numbers: " ++ debugVec [1, 2, 3, 4, 5] := by
  refine ⟨rfl, rfl, rfl⟩

/-- C9: the program performs exactly four print operations, so exactly
four newline-terminated lines are written to standard output per run; the
`Person` struct declaration produces no output at runtime. -/
theorem main_four_lines :
    Option.map List.length rustMain = some 4 := rfl

/-- C10: for every element `x` of the number sequence, `x * 2` is at most
10 and lies within the i32 range, so the checked doubling never hits the
overflow-panic branch. -/
theorem doubling_no_overflow :
    ∀ x ∈ numbers,
      x * 2 ≤ 10 ∧ i32Min ≤ x * 2 ∧ x * 2 ≤ i32Max ∧
      doubleChecked x = some (x * 2) := by decide

/-- C10 witness at the concrete element 5. -/
theorem doubling_no_overflow_witness :
    (5 : Int) ∈ numbers ∧
    ((5 : Int) * 2 ≤ 10 ∧ i32Min ≤ (5 : Int) * 2 ∧ (5 : Int) * 2 ≤ i32Max ∧
      doubleChecked 5 = some (5 * 2)) :=
  ⟨by decide, doubling_no_overflow 5 (by decide)⟩

end RustDemo
